import Mathlib

/-!
Shallow embedding of the evapoflex numerical core (src/unnamed/part_001 and
src/svelte-app/src/routes/+page.svelte) over the real numbers, together with
theorems settling the specification claims about it.

The repository file contains two versions of the calculations module,
separated by a document marker: an early Buck-only version (embedded here in
namespace `V1`) and the current multi-method version taking params objects
(namespace `V2`).  The Svelte page's derived pipeline is embedded in
namespace `Page`.  Optional TypeScript parameters with defaults are embedded
as `Option` fields resolved with `Option.getD` at the exact places the source
destructures them.  `**`/`Math.exp`/`Math.log`/`Math.log10`/`Math.pow(10,_)`
are embedded as `^`, `Real.exp`, `Real.log`, `Real.logb 10` and real `rpow`.

IEEE-754 special-value behavior (division by zero, `Math.log` of nonpositive
numbers, `Math.pow(10, -Infinity)`) is embedded separately in namespace `JS`
by a type `JSNum` of finite reals extended with signed infinities and NaN,
with arithmetic following the ECMAScript (IEEE-754) special-value rules; no
rounding is involved in the claims that use it, only special values.
-/

namespace Evapoflex

/-- Constants from the psychometric equation (identical in both versions of
the module). -/
def CONVERSION_CONSTANT : ℝ := 0.01157

def SPECIFIC_LATENT_HEAT_OF_VAPORIZATION_WATER : ℝ := 2448

def WATER_DENSITY : ℝ := 1.0

def PSYCHROMETRIC_CONSTANT : ℝ := 0.067

def EVAPORATION_CONVERSION_CONSTANT : ℝ := 6.42465e-4

def IDEAL_GAS_CONSTANT : ℝ := 8.31446261815324

def WATER_VAPOR_GAS_CONSTANT : ℝ := 461.5

/-- The `VaporPressureMethod` string-union type. -/
inductive VaporPressureMethod where
  | buck
  | magnus
  | tetens
  | antoine
  | goffGratch
deriving DecidableEq

namespace V1

/-- Version 1 `calculateSaturationVaporPressure` (Buck equation). -/
noncomputable def calculateSaturationVaporPressure (T : ℝ) : ℝ :=
  let T_celsius := T - 273.15
  let e_s_hPa :=
    6.1121 * Real.exp (((18.678 - T_celsius / 234.5) * T_celsius) / (257.14 + T_celsius))
  e_s_hPa / 10

/-- Version 1 `calculateDelta` (positional parameters; `e_s` optional, the
defaults `L_v = 2448` and `R_v = 461.5` are passed explicitly by callers of
this embedding). -/
noncomputable def calculateDelta (T : ℝ) (e_s : Option ℝ) (L_v R_v : ℝ) : ℝ :=
  let L_v_j_kg := L_v * 1000
  let e_s_val := e_s.getD (calculateSaturationVaporPressure T)
  L_v_j_kg * e_s_val / (R_v * T ^ 2)

end V1

namespace V2

/-- `calculateSaturationVaporPressure_Buck`. -/
noncomputable def calculateSaturationVaporPressure_Buck (T : ℝ) : ℝ :=
  let T_celsius := T - 273.15
  let e_s_hPa :=
    6.1121 * Real.exp (((18.678 - T_celsius / 234.5) * T_celsius) / (257.14 + T_celsius))
  e_s_hPa / 10

/-- `calculateSaturationVaporPressure_Magnus`. -/
noncomputable def calculateSaturationVaporPressure_Magnus (T : ℝ) : ℝ :=
  let T_celsius := T - 273.15
  let e_s_hPa := 6.112 * Real.exp ((17.67 * T_celsius) / (T_celsius + 243.5))
  e_s_hPa / 10

/-- `calculateSaturationVaporPressure_Tetens`. -/
noncomputable def calculateSaturationVaporPressure_Tetens (T : ℝ) : ℝ :=
  let T_celsius := T - 273.15
  let e_s_hPa := 6.1078 * Real.exp ((17.27 * T_celsius) / (T_celsius + 237.3))
  e_s_hPa / 10

/-- `calculateSaturationVaporPressure_Antoine`; `Math.pow(10, x)` is real
rpow. -/
noncomputable def calculateSaturationVaporPressure_Antoine (T : ℝ) : ℝ :=
  let A := 8.07131
  let B := 1730.63
  let C := -39.724
  let log10_p_mmHg := A - B / (T + C)
  let p_mmHg := (10 : ℝ) ^ log10_p_mmHg
  let p_kPa := p_mmHg * 0.133322
  p_kPa

/-- `calculateSaturationVaporPressure_GoffGratch`; `Math.log10` is
`Real.logb 10`. -/
noncomputable def calculateSaturationVaporPressure_GoffGratch (T : ℝ) : ℝ :=
  let T_steam : ℝ := 373.16
  let log10_e_s :=
    -7.90298 * (T_steam / T - 1) +
      5.02808 * Real.logb 10 (T_steam / T) -
      1.3816e-7 * ((10 : ℝ) ^ (11.344 * (1 - T / T_steam)) - 1) +
      8.1328e-3 * ((10 : ℝ) ^ (-3.49149 * (T_steam / T - 1)) - 1) +
      Real.logb 10 1013.246
  let e_s_hPa := (10 : ℝ) ^ log10_e_s
  e_s_hPa / 10

/-- Version 2 `calculateSaturationVaporPressure`: dispatch on the method tag
(default `buck`). -/
noncomputable def calculateSaturationVaporPressure (T : ℝ)
    (method : VaporPressureMethod) : ℝ :=
  match method with
  | .magnus => calculateSaturationVaporPressure_Magnus T
  | .tetens => calculateSaturationVaporPressure_Tetens T
  | .antoine => calculateSaturationVaporPressure_Antoine T
  | .goffGratch => calculateSaturationVaporPressure_GoffGratch T
  | .buck => calculateSaturationVaporPressure_Buck T

/-- Params object of the version 2 `calculateDelta`; optional fields are
`Option`s, resolved to the source defaults inside the function. -/
structure DeltaParams where
  T : ℝ
  e_s : Option ℝ
  L_v : Option ℝ
  R_v : Option ℝ
  method : Option VaporPressureMethod

/-- Version 2 `calculateDelta`. -/
noncomputable def calculateDelta (params : DeltaParams) : ℝ :=
  let L_v := params.L_v.getD SPECIFIC_LATENT_HEAT_OF_VAPORIZATION_WATER
  let R_v := params.R_v.getD WATER_VAPOR_GAS_CONSTANT
  let method := params.method.getD .buck
  let L_v_j_kg := L_v * 1000
  let e_s_calculated :=
    params.e_s.getD (calculateSaturationVaporPressure params.T method)
  L_v_j_kg * e_s_calculated / (R_v * params.T ^ 2)

/-- Params object of `calculateEvaporationRate`. -/
structure EvaporationRateParams where
  R_n : ℝ
  delta : ℝ
  u_a : ℝ
  T_mean : ℝ
  relHum : ℝ
  c_t : Option ℝ
  L_v : Option ℝ
  rho_w : Option ℝ
  gamma : Option ℝ
  method : Option VaporPressureMethod

/-- `calculateEvaporationRate` (psychrometric equation). -/
noncomputable def calculateEvaporationRate (params : EvaporationRateParams) : ℝ :=
  let c_t := params.c_t.getD CONVERSION_CONSTANT
  let L_v := params.L_v.getD SPECIFIC_LATENT_HEAT_OF_VAPORIZATION_WATER
  let rho_w := params.rho_w.getD WATER_DENSITY
  let gamma := params.gamma.getD PSYCHROMETRIC_CONSTANT
  let method := params.method.getD .buck
  let e_star := calculateSaturationVaporPressure params.T_mean method
  let D_a := (1 - params.relHum) * e_star
  let numerator :=
    params.delta * params.R_n +
      2.6 * c_t * L_v * rho_w * gamma * (1 + 0.54 * params.u_a) * D_a
  let denominator := params.delta + gamma
  let E_pr := numerator / (c_t * L_v * rho_w * denominator)
  E_pr

/-- Params object of `calculatePowerPerArea`. -/
structure PowerPerAreaParams where
  evapRate : ℝ
  T_air : ℝ
  relHumWet : ℝ
  relHumAir : ℝ
  c_t : Option ℝ
  R : Option ℝ

/-- `calculatePowerPerArea`; `Math.log` is `Real.log`. -/
noncomputable def calculatePowerPerArea (params : PowerPerAreaParams) : ℝ :=
  let c_t := params.c_t.getD EVAPORATION_CONVERSION_CONSTANT
  let R := params.R.getD IDEAL_GAS_CONSTANT
  c_t * params.evapRate * R * params.T_air *
    Real.log (params.relHumWet / params.relHumAir)

end V2

namespace Page

/-- Initial slider state of the page (+page.svelte). -/
def irradiance : ℝ := 500

def airTemperatureDegC : ℝ := 20

def windSpeedMps : ℝ := 4

def relativeHumidityPct : ℝ := 5

def vaporPressureMethod : VaporPressureMethod := .buck

/-- Derived Kelvin temperature. -/
def airTemperatureK : ℝ := airTemperatureDegC + 273.15

/-- Derived humidity fraction. -/
noncomputable def relativeHumidityFraction : ℝ := relativeHumidityPct / 100

/-- Derived `delta` of the page: `calculateDelta({T, method})`. -/
noncomputable def delta : ℝ :=
  V2.calculateDelta ⟨airTemperatureK, none, none, none, some vaporPressureMethod⟩

/-- Derived `evaporationRate` of the page. -/
noncomputable def evaporationRate : ℝ :=
  V2.calculateEvaporationRate
    ⟨irradiance, delta, windSpeedMps, airTemperatureK, relativeHumidityFraction,
      none, none, none, none, some vaporPressureMethod⟩

/-- Derived `totalLatentEnergy` of the page. -/
noncomputable def totalLatentEnergy : ℝ :=
  evaporationRate * SPECIFIC_LATENT_HEAT_OF_VAPORIZATION_WATER * 1000 / (24 * 3600)

/-- Derived `maxEnginePower` of the page. -/
noncomputable def maxEnginePower : ℝ :=
  V2.calculatePowerPerArea
    ⟨evaporationRate, airTemperatureK, 0.975, relativeHumidityFraction, none, none⟩

end Page

/-- A JavaScript number restricted to the values relevant here: a finite real,
the two infinities, or NaN.  (The negative zero of IEEE-754 is not
distinguished from `fin 0`; the modelled inputs only produce positive
zeros.) -/
inductive JSNum where
  | fin : ℝ → JSNum
  | top
  | bot
  | nan

namespace JSNum

/-- A `JSNum` is finite when it carries a real value. -/
def isFinite : JSNum → Bool
  | fin _ => true
  | _ => false

/-- IEEE-754 multiplication on special values; finite times finite is exact
real multiplication (rounding is irrelevant to the claims settled with
this model). -/
noncomputable def jsMul : JSNum → JSNum → JSNum
  | nan, _ => nan
  | _, nan => nan
  | fin x, fin y => fin (x * y)
  | fin x, top => if 0 < x then top else if x < 0 then bot else nan
  | fin x, bot => if 0 < x then bot else if x < 0 then top else nan
  | top, fin y => if 0 < y then top else if y < 0 then bot else nan
  | bot, fin y => if 0 < y then bot else if y < 0 then top else nan
  | top, top => top
  | top, bot => bot
  | bot, top => bot
  | bot, bot => top

/-- IEEE-754 addition on special values. -/
noncomputable def jsAdd : JSNum → JSNum → JSNum
  | nan, _ => nan
  | _, nan => nan
  | fin x, fin y => fin (x + y)
  | fin _, top => top
  | fin _, bot => bot
  | top, fin _ => top
  | bot, fin _ => bot
  | top, top => top
  | top, bot => nan
  | bot, top => nan
  | bot, bot => bot

/-- IEEE-754 subtraction on special values. -/
noncomputable def jsSub : JSNum → JSNum → JSNum
  | nan, _ => nan
  | _, nan => nan
  | fin x, fin y => fin (x - y)
  | fin _, top => bot
  | fin _, bot => top
  | top, fin _ => top
  | bot, fin _ => bot
  | top, top => nan
  | top, bot => top
  | bot, top => bot
  | bot, bot => nan

/-- IEEE-754 division on special values; a finite number divided by (positive)
zero gives the infinity of the numerator's sign, and `0 / 0` gives NaN. -/
noncomputable def jsDiv : JSNum → JSNum → JSNum
  | nan, _ => nan
  | _, nan => nan
  | fin x, fin y =>
      if y = 0 then (if 0 < x then top else if x < 0 then bot else nan)
      else fin (x / y)
  | fin _, top => fin 0
  | fin _, bot => fin 0
  | top, fin y => if 0 ≤ y then top else bot
  | bot, fin y => if 0 ≤ y then bot else top
  | top, top => nan
  | top, bot => nan
  | bot, top => nan
  | bot, bot => nan

/-- `Math.log`: NaN on NaN and on negative arguments (including `-Infinity`),
`-Infinity` at zero, `+Infinity` at `+Infinity`. -/
noncomputable def jsLog : JSNum → JSNum
  | nan => nan
  | top => top
  | bot => nan
  | fin x => if x < 0 then nan else if x = 0 then bot else fin (Real.log x)

/-- `Math.pow(10, _)`: `+Infinity` at `+Infinity`, zero at `-Infinity`, NaN on
NaN, real rpow on finite exponents. -/
noncomputable def jsPow10 : JSNum → JSNum
  | nan => nan
  | top => top
  | bot => fin 0
  | fin x => fin ((10 : ℝ) ^ x)

end JSNum

namespace JS

open JSNum

/-- `calculatePowerPerArea` with its default constants, evaluated in
JavaScript (IEEE-754) number semantics, multiplications associated as in the
source. -/
noncomputable def calculatePowerPerArea
    (evapRate T_air relHumWet relHumAir : JSNum) : JSNum :=
  jsMul
    (jsMul (jsMul (jsMul (fin EVAPORATION_CONVERSION_CONSTANT) evapRate)
        (fin IDEAL_GAS_CONSTANT)) T_air)
    (jsLog (jsDiv relHumWet relHumAir))

/-- `calculateSaturationVaporPressure_Antoine` evaluated in JavaScript
(IEEE-754) number semantics. -/
noncomputable def calculateSaturationVaporPressure_Antoine (T : JSNum) : JSNum :=
  let denom := jsAdd T (fin (-39.724))
  let log10_p_mmHg := jsSub (fin 8.07131) (jsDiv (fin 1730.63) denom)
  let p_mmHg := jsPow10 log10_p_mmHg
  jsMul p_mmHg (fin 0.133322)

end JS

end Evapoflex

namespace Evapoflex

/-- Lower Taylor bound for the exponential: the degree-8 Taylor polynomial
lies below `exp q` for `0 ≤ q`. -/
lemma exp_taylor9_lb (q lo : ℝ) (h0 : 0 ≤ q)
    (hlo : lo < 1 + q + q ^ 2 / 2 + q ^ 3 / 6 + q ^ 4 / 24 + q ^ 5 / 120 +
      q ^ 6 / 720 + q ^ 7 / 5040 + q ^ 8 / 40320) :
    lo < Real.exp q := by
  have h := Real.sum_le_exp_of_nonneg h0 9
  have hs : ∑ i ∈ Finset.range 9, q ^ i / (Nat.factorial i) =
      1 + q + q ^ 2 / 2 + q ^ 3 / 6 + q ^ 4 / 24 + q ^ 5 / 120 +
        q ^ 6 / 720 + q ^ 7 / 5040 + q ^ 8 / 40320 := by
    simp [Finset.sum_range_succ, Nat.factorial]
  rw [hs] at h
  linarith

/-- Upper Taylor bound for the exponential on `[0, 1]`: the degree-8 Taylor
polynomial plus the standard remainder term dominates `exp q`. -/
lemma exp_taylor9_ub (q hi : ℝ) (h0 : 0 ≤ q) (h1 : q ≤ 1)
    (hhi : 1 + q + q ^ 2 / 2 + q ^ 3 / 6 + q ^ 4 / 24 + q ^ 5 / 120 +
      q ^ 6 / 720 + q ^ 7 / 5040 + q ^ 8 / 40320 + q ^ 9 * 10 / 3265920 < hi) :
    Real.exp q < hi := by
  have h := @Real.exp_bound' q h0 h1 9 (by norm_num)
  have hs : ∑ i ∈ Finset.range 9, q ^ i / (Nat.factorial i) =
      1 + q + q ^ 2 / 2 + q ^ 3 / 6 + q ^ 4 / 24 + q ^ 5 / 120 +
        q ^ 6 / 720 + q ^ 7 / 5040 + q ^ 8 / 40320 := by
    simp [Finset.sum_range_succ, Nat.factorial]
  rw [hs] at h
  have hr : q ^ 9 * ((9:ℕ) + 1) / ((Nat.factorial 9 : ℕ) * (9:ℕ)) =
      q ^ 9 * 10 / 3265920 := by
    norm_num [Nat.factorial]
  rw [hr] at h
  linarith

/-- Numeric lower bound on the natural logarithm of 10. -/
lemma log_ten_lb : (2.302584:ℝ) < Real.log 10 := by
  rw [Real.lt_log_iff_exp_lt (by norm_num : (0:ℝ) < 10)]
  have hsplit : (2.302584:ℝ) = 1 + 1 + 0.302584 := by norm_num
  rw [hsplit, Real.exp_add, Real.exp_add]
  have hu : Real.exp 0.302584 < 1.3533514 :=
    exp_taylor9_ub 0.302584 1.3533514 (by norm_num) (by norm_num) (by norm_num)
  have he := Real.exp_one_lt_d9
  have h1 : Real.exp 1 * Real.exp 1 < 2.7182818286 * 2.7182818286 :=
    mul_lt_mul'' he he (Real.exp_pos 1).le (Real.exp_pos 1).le
  have h2 : Real.exp 1 * Real.exp 1 * Real.exp 0.302584 <
      2.7182818286 * 2.7182818286 * 1.3533514 :=
    mul_lt_mul'' h1 hu (mul_pos (Real.exp_pos 1) (Real.exp_pos 1)).le
      (Real.exp_pos 0.302584).le
  calc Real.exp 1 * Real.exp 1 * Real.exp 0.302584 <
      2.7182818286 * 2.7182818286 * 1.3533514 := h2
    _ < 10 := by norm_num

/-- Numeric upper bound on the natural logarithm of 10. -/
lemma log_ten_ub : Real.log 10 < (2.302586:ℝ) := by
  rw [Real.log_lt_iff_lt_exp (by norm_num : (0:ℝ) < 10)]
  have hsplit : (2.302586:ℝ) = 1 + 1 + 0.302586 := by norm_num
  rw [hsplit, Real.exp_add, Real.exp_add]
  have hl : (1.3533539:ℝ) < Real.exp 0.302586 :=
    exp_taylor9_lb 0.302586 1.3533539 (by norm_num) (by norm_num)
  have he := Real.exp_one_gt_d9
  have h1 : 2.7182818283 * 2.7182818283 < Real.exp 1 * Real.exp 1 :=
    mul_lt_mul'' he he (by norm_num) (by norm_num)
  have h2 : 2.7182818283 * 2.7182818283 * 1.3533539 <
      Real.exp 1 * Real.exp 1 * Real.exp 0.302586 :=
    mul_lt_mul'' h1 hl (by norm_num) (by norm_num)
  calc (10:ℝ) < 2.7182818283 * 2.7182818283 * 1.3533539 := by norm_num
    _ < Real.exp 1 * Real.exp 1 * Real.exp 0.302586 := h2

/-- The natural logarithm of 10 exceeds 2 (used to dominate the decreasing
log term of Goff-Gratch). -/
lemma two_lt_log_ten : (2:ℝ) < Real.log 10 := by
  rw [Real.lt_log_iff_exp_lt (by norm_num : (0:ℝ) < 10)]
  have h : Real.exp 2 = Real.exp 1 * Real.exp 1 := by
    rw [← Real.exp_add]
    norm_num
  nlinarith [Real.exp_one_lt_d9, Real.exp_pos 1]

/-- C1: with the default constants, `calculateEvaporationRate` returns exactly
the Penman-style formula of the claim, where `e_star` is the selected
saturation vapor pressure at `T_mean` and `D_a = (1 - relHum) * e_star`. -/
theorem evaporationRate_default_formula (R_n delta u_a T_mean relHum : ℝ)
    (method : VaporPressureMethod) :
    V2.calculateEvaporationRate
        ⟨R_n, delta, u_a, T_mean, relHum, none, none, none, none, some method⟩ =
      (delta * R_n +
          2.6 * 0.01157 * 2448 * 1.0 * 0.067 * (1 + 0.54 * u_a) *
            ((1 - relHum) * V2.calculateSaturationVaporPressure T_mean method)) /
        (0.01157 * 2448 * 1.0 * (delta + 0.067)) := by
  rfl

/-- C2: with the default constants, `calculatePowerPerArea` returns exactly
`c_t * evapRate * R * T_air * ln(relHumWet / relHumAir)`. -/
theorem powerPerArea_default_formula (evapRate T_air relHumWet relHumAir : ℝ) :
    V2.calculatePowerPerArea ⟨evapRate, T_air, relHumWet, relHumAir, none, none⟩ =
      6.42465e-4 * evapRate * 8.31446261815324 * T_air *
        Real.log (relHumWet / relHumAir) := by
  rfl

/-- C6: `calculateDelta` is strictly positive whenever the supplied `e_s` is
positive and `T` is nonzero (with default `L_v = 2448`, `R_v = 461.5`); and
with `e_s` omitted, it is positive for `T > 0` whenever the computed
saturation vapor pressure is positive. -/
theorem calculateDelta_pos :
    (∀ (T e_s : ℝ) (method : Option VaporPressureMethod), T ≠ 0 → 0 < e_s →
        0 < V2.calculateDelta ⟨T, some e_s, none, none, method⟩) ∧
      ∀ (T : ℝ) (method : VaporPressureMethod), 0 < T →
        0 < V2.calculateSaturationVaporPressure T method →
        0 < V2.calculateDelta ⟨T, none, none, none, some method⟩ := by
  constructor
  · intro T e_s method hT he
    show 0 < SPECIFIC_LATENT_HEAT_OF_VAPORIZATION_WATER * 1000 * e_s /
      (WATER_VAPOR_GAS_CONSTANT * T ^ 2)
    have hT2 : 0 < T ^ 2 := by positivity
    apply div_pos
    · have : (0:ℝ) < SPECIFIC_LATENT_HEAT_OF_VAPORIZATION_WATER * 1000 := by
        norm_num [SPECIFIC_LATENT_HEAT_OF_VAPORIZATION_WATER]
      exact mul_pos this he
    · exact mul_pos (by norm_num [WATER_VAPOR_GAS_CONSTANT]) hT2
  · intro T method hT he
    show 0 < SPECIFIC_LATENT_HEAT_OF_VAPORIZATION_WATER * 1000 *
      V2.calculateSaturationVaporPressure T method /
      (WATER_VAPOR_GAS_CONSTANT * T ^ 2)
    have hT2 : 0 < T ^ 2 := by positivity
    apply div_pos
    · have : (0:ℝ) < SPECIFIC_LATENT_HEAT_OF_VAPORIZATION_WATER * 1000 := by
        norm_num [SPECIFIC_LATENT_HEAT_OF_VAPORIZATION_WATER]
      exact mul_pos this he
    · exact mul_pos (by norm_num [WATER_VAPOR_GAS_CONSTANT]) hT2

/-- C6 witness: the positivity theorem applied at `T = 293.15`,
`e_s = 2.3` and at the computed Buck pressure. -/
theorem calculateDelta_pos_witness :
    (293.15 : ℝ) ≠ 0 ∧ (0:ℝ) < 2.3 ∧
      0 < V2.calculateDelta ⟨293.15, some 2.3, none, none, some .buck⟩ := by
  refine ⟨by norm_num, by norm_num, ?_⟩
  exact calculateDelta_pos.1 293.15 2.3 (some .buck) (by norm_num) (by norm_num)

/-- C3: from the initial store state (irradiance 500, 20 degC, wind 4 m/s,
relative humidity 5 pct, method buck) the derived pipeline gives
`delta` within 0.001 of 0.145 kPa/K, a strictly positive evaporation rate,
`totalLatentEnergy = evaporationRate * 2448 * 1000 / 86400`, and a strictly
positive maximum engine power.  (All quantities are real numbers of the
embedding, hence finite.) -/
theorem page_initial_pipeline :
    |Page.delta - 0.145| < 0.001 ∧
      0 < Page.evaporationRate ∧
      Page.totalLatentEnergy = Page.evaporationRate * 2448 * 1000 / 86400 ∧
      0 < Page.maxEnginePower := by
  have hdelta : Page.delta =
      2448 * 1000 *
        (6.1121 * Real.exp ((18.678 - (20 + 273.15 - 273.15) / 234.5) *
          (20 + 273.15 - 273.15) / (257.14 + (20 + 273.15 - 273.15))) / 10) /
        (461.5 * (20 + 273.15) ^ 2) := rfl
  have harg : (18.678 - ((20:ℝ) + 273.15 - 273.15) / 234.5) *
      (20 + 273.15 - 273.15) / (257.14 + (20 + 273.15 - 273.15)) =
      1 + (2221049 / 6498933 : ℝ) := by
    norm_num
  rw [harg, Real.exp_add] at hdelta
  have hq_lo : (1.4074167:ℝ) < Real.exp ((2221049 : ℝ) / 6498933) :=
    exp_taylor9_lb ((2221049 : ℝ) / 6498933) 1.4074167 (by norm_num) (by norm_num)
  have hq_hi : Real.exp ((2221049 : ℝ) / 6498933) < 1.4074168 :=
    exp_taylor9_ub ((2221049 : ℝ) / 6498933) 1.4074168 (by norm_num) (by norm_num)
      (by norm_num)
  have hprod_lo : (2.7182818283:ℝ) * 1.4074167 <
      Real.exp 1 * Real.exp ((2221049 : ℝ) / 6498933) :=
    mul_lt_mul'' Real.exp_one_gt_d9 hq_lo (by norm_num) (by norm_num)
  have hprod_hi : Real.exp 1 * Real.exp ((2221049 : ℝ) / 6498933) <
      2.7182818286 * 1.4074168 :=
    mul_lt_mul'' Real.exp_one_lt_d9 hq_hi (Real.exp_pos 1).le (Real.exp_pos _).le
  have hdelta2 : Page.delta = 2448 * 1000 * 6.1121 / 10 /
      (461.5 * (20 + 273.15) ^ 2) *
      (Real.exp 1 * Real.exp ((2221049 : ℝ) / 6498933)) := by
    rw [hdelta]
    ring
  have hd_lo : (0.1443:ℝ) < Page.delta := by
    rw [hdelta2]
    nlinarith [hprod_lo]
  have hd_hi : Page.delta < (0.1444:ℝ) := by
    rw [hdelta2]
    nlinarith [hprod_hi, hprod_lo]
  have habs : |Page.delta - 0.145| < 0.001 := by
    rw [abs_lt]
    constructor <;> linarith
  have hevap : Page.evaporationRate =
      (Page.delta * 500 + 2.6 * 0.01157 * 2448 * 1.0 * 0.067 * (1 + 0.54 * 4) *
        ((1 - 5 / 100) *
          (6.1121 * Real.exp ((18.678 - (20 + 273.15 - 273.15) / 234.5) *
            (20 + 273.15 - 273.15) / (257.14 + (20 + 273.15 - 273.15))) / 10))) /
      (0.01157 * 2448 * 1.0 * (Page.delta + 0.067)) := rfl
  rw [harg] at hevap
  have hevap_pos : 0 < Page.evaporationRate := by
    rw [hevap]
    apply div_pos
    · nlinarith [hd_lo, Real.exp_pos (1 + (2221049 / 6498933 : ℝ))]
    · nlinarith [hd_lo]
  have htle : Page.totalLatentEnergy =
      Page.evaporationRate * 2448 * 1000 / 86400 := by
    show Page.evaporationRate * 2448 * 1000 / (24 * 3600) = _
    norm_num
  have hmp : Page.maxEnginePower = 6.42465e-4 * Page.evaporationRate *
      8.31446261815324 * (20 + 273.15) * Real.log (0.975 / (5 / 100)) := rfl
  have hlogpos : 0 < Real.log (0.975 / (5 / 100)) := by
    have h195 : (0.975:ℝ) / (5 / 100) = 19.5 := by norm_num
    rw [h195]
    exact Real.log_pos (by norm_num)
  have hmp_pos : 0 < Page.maxEnginePower := by
    rw [hmp]
    exact mul_pos (mul_pos (mul_pos (mul_pos (by norm_num) hevap_pos)
      (by norm_num)) (by norm_num)) hlogpos
  exact ⟨habs, hevap_pos, htle, hmp_pos⟩

/-- Upper bound for `exp (k + q)` via the ninth power bound on `e` and the
Taylor upper bound on `exp q`. -/
lemma exp_add_nat_lt (k : ℕ) (q b hi : ℝ) (hk : k ≠ 0) (h0 : 0 ≤ q) (h1 : q ≤ 1)
    (hb : 1 + q + q ^ 2 / 2 + q ^ 3 / 6 + q ^ 4 / 24 + q ^ 5 / 120 + q ^ 6 / 720 +
      q ^ 7 / 5040 + q ^ 8 / 40320 + q ^ 9 * 10 / 3265920 < b)
    (hhi : 2.7182818286 ^ k * b ≤ hi) :
    Real.exp ((k : ℝ) + q) < hi := by
  have hq : Real.exp q < b := exp_taylor9_ub q b h0 h1 hb
  have hsplit : Real.exp ((k : ℝ) + q) = Real.exp 1 ^ k * Real.exp q := by
    rw [Real.exp_add, ← Real.exp_nat_mul, mul_one]
  rw [hsplit]
  have hpow : Real.exp 1 ^ k < 2.7182818286 ^ k :=
    pow_lt_pow_left Real.exp_one_lt_d9 (Real.exp_pos 1).le hk
  have hm := mul_lt_mul'' hpow hq (pow_nonneg (Real.exp_pos 1).le k)
    (Real.exp_pos q).le
  linarith

/-- Lower bound for `exp (k + q)` via the power bound on `e` and the Taylor
lower bound on `exp q`. -/
lemma lt_exp_add_nat (k : ℕ) (q b lo : ℝ) (hk : k ≠ 0) (h0 : 0 ≤ q) (hbpos : 0 < b)
    (hb : b < 1 + q + q ^ 2 / 2 + q ^ 3 / 6 + q ^ 4 / 24 + q ^ 5 / 120 + q ^ 6 / 720 +
      q ^ 7 / 5040 + q ^ 8 / 40320)
    (hlo : lo ≤ 2.7182818283 ^ k * b) :
    lo < Real.exp ((k : ℝ) + q) := by
  have hq : b < Real.exp q := exp_taylor9_lb q b h0 hb
  have hsplit : Real.exp ((k : ℝ) + q) = Real.exp 1 ^ k * Real.exp q := by
    rw [Real.exp_add, ← Real.exp_nat_mul, mul_one]
  rw [hsplit]
  have hpow : (2.7182818283:ℝ) ^ k < Real.exp 1 ^ k :=
    pow_lt_pow_left Real.exp_one_gt_d9 (by norm_num) hk
  have hm := mul_lt_mul'' hpow hq (by positivity) hbpos.le
  linarith

/-- The Buck pressure at the ice point is exactly 0.61121 kPa (the exponent
vanishes). -/
lemma buck_ice_value : V2.calculateSaturationVaporPressure_Buck 273.15 = 0.61121 := by
  show 6.1121 * Real.exp ((18.678 - (273.15 - 273.15) / 234.5) *
      (273.15 - 273.15) / (257.14 + (273.15 - 273.15))) / 10 = 0.61121
  have harg : (18.678 - ((273.15:ℝ) - 273.15) / 234.5) * (273.15 - 273.15) /
      (257.14 + (273.15 - 273.15)) = 0 := by norm_num
  rw [harg, Real.exp_zero]
  norm_num

/-- The Magnus pressure at the ice point is exactly 0.6112 kPa. -/
lemma magnus_ice_value :
    V2.calculateSaturationVaporPressure_Magnus 273.15 = 0.6112 := by
  show 6.112 * Real.exp (17.67 * (273.15 - 273.15) / ((273.15 - 273.15) + 243.5)) /
      10 = 0.6112
  have harg : (17.67:ℝ) * (273.15 - 273.15) / ((273.15 - 273.15) + 243.5) = 0 := by
    norm_num
  rw [harg, Real.exp_zero]
  norm_num

/-- The Tetens pressure at the ice point is exactly 0.61078 kPa. -/
lemma tetens_ice_value :
    V2.calculateSaturationVaporPressure_Tetens 273.15 = 0.61078 := by
  show 6.1078 * Real.exp (17.27 * (273.15 - 273.15) / ((273.15 - 273.15) + 237.3)) /
      10 = 0.61078
  have harg : (17.27:ℝ) * (273.15 - 273.15) / ((273.15 - 273.15) + 237.3) = 0 := by
    norm_num
  rw [harg, Real.exp_zero]
  norm_num

/-- Two-sided numeric bounds on the Antoine pressure at the ice point: it lies
between 4.5421 * 0.133322 and 4.5423 * 0.133322 kPa (about 0.6056 kPa). -/
lemma antoine_ice_bounds :
    (4.5421:ℝ) * 0.133322 < V2.calculateSaturationVaporPressure_Antoine 273.15 ∧
      V2.calculateSaturationVaporPressure_Antoine 273.15 < 4.5423 * 0.133322 := by
  have hval : V2.calculateSaturationVaporPressure_Antoine 273.15 =
      (10:ℝ) ^ ((8.07131:ℝ) - 1730.63 / (273.15 + -39.724)) * 0.133322 := rfl
  have h10 : ((10:ℝ) ^ ((8.07131:ℝ) - 1730.63 / (273.15 + -39.724))) =
      Real.exp (Real.log 10 * (8.07131 - 1730.63 / (273.15 + -39.724))) :=
    Real.rpow_def_of_pos (by norm_num) _
  rw [hval, h10]
  have hlogten_pos : (0:ℝ) < Real.log 10 := Real.log_pos (by norm_num)
  have hyU : Real.log 10 * ((8.07131:ℝ) - 1730.63 / (273.15 + -39.724)) <
      1.5134181 := by
    have s1 : Real.log 10 * ((8.07131:ℝ) - 1730.63 / (273.15 + -39.724)) ≤
        Real.log 10 * 0.6572688 :=
      mul_le_mul_of_nonneg_left (by norm_num) hlogten_pos.le
    have s2 : Real.log 10 * (0.6572688:ℝ) < 2.302586 * 0.6572688 :=
      mul_lt_mul_of_pos_right log_ten_ub (by norm_num)
    calc Real.log 10 * ((8.07131:ℝ) - 1730.63 / (273.15 + -39.724)) ≤
        Real.log 10 * 0.6572688 := s1
      _ < 2.302586 * 0.6572688 := s2
      _ ≤ 1.5134181 := by norm_num
  have hyL : (1.5134155:ℝ) <
      Real.log 10 * ((8.07131:ℝ) - 1730.63 / (273.15 + -39.724)) := by
    have s1 : (2.302584:ℝ) * 0.6572687 < Real.log 10 * 0.6572687 :=
      mul_lt_mul_of_pos_right log_ten_lb (by norm_num)
    have s2 : Real.log 10 * (0.6572687:ℝ) ≤
        Real.log 10 * ((8.07131:ℝ) - 1730.63 / (273.15 + -39.724)) :=
      mul_le_mul_of_nonneg_left (by norm_num) hlogten_pos.le
    calc (1.5134155:ℝ) < 2.302584 * 0.6572687 := by norm_num
      _ < Real.log 10 * 0.6572687 := s1
      _ ≤ Real.log 10 * ((8.07131:ℝ) - 1730.63 / (273.15 + -39.724)) := s2
  constructor
  · have h1 : Real.exp 1.5134155 <
        Real.exp (Real.log 10 * ((8.07131:ℝ) - 1730.63 / (273.15 + -39.724))) :=
      Real.exp_lt_exp.2 hyL
    have h2 : (4.5421:ℝ) < Real.exp 1.5134155 := by
      rw [show (1.5134155:ℝ) = ((1:ℕ):ℝ) + 0.5134155 by norm_num]
      exact lt_exp_add_nat 1 0.5134155 1.6709880 4.5421 (by norm_num) (by norm_num)
        (by norm_num) (by norm_num) (by norm_num)
    nlinarith
  · have h1 : Real.exp (Real.log 10 * ((8.07131:ℝ) - 1730.63 / (273.15 + -39.724)))
        < Real.exp 1.5134181 := Real.exp_lt_exp.2 hyU
    have h2 : Real.exp 1.5134181 < 4.5423 := by
      rw [show (1.5134181:ℝ) = ((1:ℕ):ℝ) + 0.5134181 by norm_num]
      exact exp_add_nat_lt 1 0.5134181 1.6710000 4.5423 (by norm_num) (by norm_num)
        (by norm_num) (by norm_num) (by norm_num)
    nlinarith

set_option maxHeartbeats 2000000 in
/-- Two-sided numeric bounds on the Goff-Gratch pressure at the ice point: it
lies strictly between 0.61029 and 0.610373 kPa; in particular it is below the
0.1 percent error threshold 0.611 * 0.999 = 0.610389. -/
lemma goffGratch_ice_bounds :
    (0.61029:ℝ) < V2.calculateSaturationVaporPressure_GoffGratch 273.15 ∧
      V2.calculateSaturationVaporPressure_GoffGratch 273.15 < 0.610373 := by
  have hlogten_pos : (0:ℝ) < Real.log 10 := Real.log_pos (by norm_num)
  -- natural log of the steam-point ratio
  have hlr_lo : (0.3119858:ℝ) < Real.log (373.16 / 273.15) := by
    rw [Real.lt_log_iff_exp_lt (by norm_num : (0:ℝ) < 373.16 / 273.15)]
    exact exp_taylor9_ub 0.3119858 (373.16 / 273.15) (by norm_num) (by norm_num)
      (by norm_num)
  have hlr_hi : Real.log (373.16 / 273.15) < 0.3119871 := by
    rw [Real.log_lt_iff_lt_exp (by norm_num : (0:ℝ) < 373.16 / 273.15)]
    exact exp_taylor9_lb 0.3119871 (373.16 / 273.15) (by norm_num) (by norm_num)
  have hlogb_r_lo : (0.1354925:ℝ) < Real.logb 10 (373.16 / 273.15) := by
    rw [Real.logb, lt_div_iff hlogten_pos]
    nlinarith [log_ten_ub, hlr_lo]
  have hlogb_r_hi : Real.logb 10 (373.16 / 273.15) < 0.1354950 := by
    rw [Real.logb, div_lt_iff hlogten_pos]
    nlinarith [log_ten_lb, hlr_hi]
  -- the 10 ^ (11.344 (1 - T / T_steam)) term
  have h10a : ((10:ℝ) ^ ((11.344:ℝ) * (1 - 273.15 / 373.16))) =
      Real.exp (Real.log 10 * (11.344 * (1 - 273.15 / 373.16))) :=
    Real.rpow_def_of_pos (by norm_num) _
  have hp3_hi : (10:ℝ) ^ ((11.344:ℝ) * (1 - 273.15 / 373.16)) < 1098 := by
    rw [h10a]
    have hq : Real.log 10 * ((11.344:ℝ) * (1 - 273.15 / 373.16)) < 7.0005230 := by
      have s1 : Real.log 10 * ((11.344:ℝ) * (1 - 273.15 / 373.16)) ≤
          Real.log 10 * 3.0402869 :=
        mul_le_mul_of_nonneg_left (by norm_num) hlogten_pos.le
      have s2 : Real.log 10 * (3.0402869:ℝ) < 2.302586 * 3.0402869 :=
        mul_lt_mul_of_pos_right log_ten_ub (by norm_num)
      calc Real.log 10 * ((11.344:ℝ) * (1 - 273.15 / 373.16)) ≤
          Real.log 10 * 3.0402869 := s1
        _ < 2.302586 * 3.0402869 := s2
        _ ≤ 7.0005230 := by norm_num
    have h1 := Real.exp_lt_exp.2 hq
    have h2 : Real.exp 7.0005230 < 1098 := by
      rw [show (7.0005230:ℝ) = ((7:ℕ):ℝ) + 0.0005230 by norm_num]
      exact exp_add_nat_lt 7 0.0005230 1.000524 1098 (by norm_num) (by norm_num)
        (by norm_num) (by norm_num) (by norm_num)
    linarith
  have hp3_lo : (1096:ℝ) < (10:ℝ) ^ ((11.344:ℝ) * (1 - 273.15 / 373.16)) := by
    rw [h10a]
    have hq : (7.0005150:ℝ) < Real.log 10 * ((11.344:ℝ) * (1 - 273.15 / 373.16)) := by
      have s1 : (2.302584:ℝ) * 3.0402868 < Real.log 10 * 3.0402868 :=
        mul_lt_mul_of_pos_right log_ten_lb (by norm_num)
      have s2 : Real.log 10 * (3.0402868:ℝ) ≤
          Real.log 10 * ((11.344:ℝ) * (1 - 273.15 / 373.16)) :=
        mul_le_mul_of_nonneg_left (by norm_num) hlogten_pos.le
      calc (7.0005150:ℝ) < 2.302584 * 3.0402868 := by norm_num
        _ < Real.log 10 * 3.0402868 := s1
        _ ≤ Real.log 10 * ((11.344:ℝ) * (1 - 273.15 / 373.16)) := s2
    have h1 := Real.exp_lt_exp.2 hq
    have h2 : (1096:ℝ) < Real.exp 7.0005150 := by
      rw [show (7.0005150:ℝ) = ((7:ℕ):ℝ) + 0.0005150 by norm_num]
      exact lt_exp_add_nat 7 0.0005150 1.000515 1096 (by norm_num) (by norm_num)
        (by norm_num) (by norm_num) (by norm_num)
    linarith
  -- the 10 ^ (-3.49149 (T_steam / T - 1)) term
  have h10b : ((10:ℝ) ^ ((-3.49149:ℝ) * (373.16 / 273.15 - 1))) =
      Real.exp (Real.log 10 * (-3.49149 * (373.16 / 273.15 - 1))) :=
    Real.rpow_def_of_pos (by norm_num) _
  have hvneg : (-3.49149:ℝ) * (373.16 / 273.15 - 1) < 0 := by norm_num
  have hw_lo : (-2.9435340:ℝ) <
      Real.log 10 * ((-3.49149:ℝ) * (373.16 / 273.15 - 1)) := by
    have s1 : (2.302586:ℝ) * ((-3.49149:ℝ) * (373.16 / 273.15 - 1)) <
        Real.log 10 * ((-3.49149:ℝ) * (373.16 / 273.15 - 1)) :=
      mul_lt_mul_of_neg_right log_ten_ub hvneg
    have s2 : (2.302586:ℝ) * (-1.2783596) ≤
        2.302586 * ((-3.49149:ℝ) * (373.16 / 273.15 - 1)) :=
      mul_le_mul_of_nonneg_left (by norm_num) (by norm_num)
    calc (-2.9435340:ℝ) < 2.302586 * (-1.2783596) := by norm_num
      _ ≤ 2.302586 * ((-3.49149:ℝ) * (373.16 / 273.15 - 1)) := s2
      _ < Real.log 10 * ((-3.49149:ℝ) * (373.16 / 273.15 - 1)) := s1
  have hw_hi : Real.log 10 * ((-3.49149:ℝ) * (373.16 / 273.15 - 1)) <
      -2.9435290 := by
    have s1 : Real.log 10 * ((-3.49149:ℝ) * (373.16 / 273.15 - 1)) <
        2.302584 * ((-3.49149:ℝ) * (373.16 / 273.15 - 1)) :=
      mul_lt_mul_of_neg_right log_ten_lb hvneg
    have s2 : (2.302584:ℝ) * ((-3.49149:ℝ) * (373.16 / 273.15 - 1)) ≤
        2.302584 * (-1.2783595) :=
      mul_le_mul_of_nonneg_left (by norm_num) (by norm_num)
    calc Real.log 10 * ((-3.49149:ℝ) * (373.16 / 273.15 - 1)) <
        2.302584 * ((-3.49149:ℝ) * (373.16 / 273.15 - 1)) := s1
      _ ≤ 2.302584 * (-1.2783595) := s2
      _ < -2.9435290 := by norm_num
  have hexpw_hi : Real.exp 2.9435340 < 18.99 := by
    rw [show (2.9435340:ℝ) = ((2:ℕ):ℝ) + 0.9435340 by norm_num]
    exact exp_add_nat_lt 2 0.9435340 2.5690450 18.99 (by norm_num) (by norm_num)
      (by norm_num) (by norm_num) (by norm_num)
  have hexpw_lo : (18.98:ℝ) < Real.exp 2.9435290 := by
    rw [show (2.9435290:ℝ) = ((2:ℕ):ℝ) + 0.9435290 by norm_num]
    exact lt_exp_add_nat 2 0.9435290 2.5689930 18.98 (by norm_num) (by norm_num)
      (by norm_num) (by norm_num) (by norm_num)
  have hp4_lo : (0.05265:ℝ) < (10:ℝ) ^ ((-3.49149:ℝ) * (373.16 / 273.15 - 1)) := by
    rw [h10b]
    have h1 : Real.exp (-2.9435340) <
        Real.exp (Real.log 10 * ((-3.49149:ℝ) * (373.16 / 273.15 - 1))) :=
      Real.exp_lt_exp.2 hw_lo
    have h2 : (0.05265:ℝ) < Real.exp (-2.9435340) := by
      rw [Real.exp_neg, inv_eq_one_div, lt_div_iff (Real.exp_pos _)]
      nlinarith [hexpw_hi, Real.exp_pos (2.9435340:ℝ)]
    linarith
  have hp4_hi : (10:ℝ) ^ ((-3.49149:ℝ) * (373.16 / 273.15 - 1)) < 0.0527 := by
    rw [h10b]
    have h1 : Real.exp (Real.log 10 * ((-3.49149:ℝ) * (373.16 / 273.15 - 1))) <
        Real.exp (-2.9435290) := Real.exp_lt_exp.2 hw_hi
    have h2 : Real.exp (-2.9435290) < 0.0527 := by
      rw [Real.exp_neg, inv_eq_one_div, div_lt_iff (Real.exp_pos _)]
      nlinarith [hexpw_lo]
    linarith
  -- logb of 1013.246
  have hln_lo : (6.920900:ℝ) < Real.log 1013.246 := by
    rw [Real.lt_log_iff_exp_lt (by norm_num : (0:ℝ) < 1013.246)]
    rw [show (6.920900:ℝ) = ((6:ℕ):ℝ) + 0.920900 by norm_num]
    exact exp_add_nat_lt 6 0.920900 2.5115500 1013.246 (by norm_num) (by norm_num)
      (by norm_num) (by norm_num) (by norm_num)
  have hln_hi : Real.log 1013.246 < 6.920930 := by
    rw [Real.log_lt_iff_lt_exp (by norm_num : (0:ℝ) < 1013.246)]
    rw [show (6.920930:ℝ) = ((6:ℕ):ℝ) + 0.920930 by norm_num]
    exact lt_exp_add_nat 6 0.920930 2.5116230 1013.246 (by norm_num) (by norm_num)
      (by norm_num) (by norm_num) (by norm_num)
  have hlogb1013_lo : (3.0057020:ℝ) < Real.logb 10 1013.246 := by
    rw [Real.logb, lt_div_iff hlogten_pos]
    nlinarith [log_ten_ub, hln_lo]
  have hlogb1013_hi : Real.logb 10 1013.246 < 3.0057260 := by
    rw [Real.logb, div_lt_iff hlogten_pos]
    nlinarith [log_ten_lb, hln_hi]
  -- assemble the exponent bounds
  have hL_lo : (0.7855480:ℝ) < -7.90298 * (373.16 / 273.15 - 1) +
      5.02808 * Real.logb 10 (373.16 / 273.15) -
      1.3816e-7 * ((10:ℝ) ^ ((11.344:ℝ) * (1 - 273.15 / 373.16)) - 1) +
      8.1328e-3 * ((10:ℝ) ^ ((-3.49149:ℝ) * (373.16 / 273.15 - 1)) - 1) +
      Real.logb 10 1013.246 := by
    nlinarith [hlogb_r_lo, hp3_hi, hp4_lo, hlogb1013_lo]
  have hL_hi : -7.90298 * (373.16 / 273.15 - 1) +
      5.02808 * Real.logb 10 (373.16 / 273.15) -
      1.3816e-7 * ((10:ℝ) ^ ((11.344:ℝ) * (1 - 273.15 / 373.16)) - 1) +
      8.1328e-3 * ((10:ℝ) ^ ((-3.49149:ℝ) * (373.16 / 273.15 - 1)) - 1) +
      Real.logb 10 1013.246 < 0.7855940 := by
    nlinarith [hlogb_r_hi, hp3_lo, hp4_hi, hlogb1013_hi]
  -- final rpow bounds
  have hval : V2.calculateSaturationVaporPressure_GoffGratch 273.15 =
      (10:ℝ) ^ (-7.90298 * (373.16 / 273.15 - 1) +
        5.02808 * Real.logb 10 (373.16 / 273.15) -
        1.3816e-7 * ((10:ℝ) ^ ((11.344:ℝ) * (1 - 273.15 / 373.16)) - 1) +
        8.1328e-3 * ((10:ℝ) ^ ((-3.49149:ℝ) * (373.16 / 273.15 - 1)) - 1) +
        Real.logb 10 1013.246) / 10 := rfl
  have h10c : ((10:ℝ) ^ (-7.90298 * (373.16 / 273.15 - 1) +
      5.02808 * Real.logb 10 (373.16 / 273.15) -
      1.3816e-7 * ((10:ℝ) ^ ((11.344:ℝ) * (1 - 273.15 / 373.16)) - 1) +
      8.1328e-3 * ((10:ℝ) ^ ((-3.49149:ℝ) * (373.16 / 273.15 - 1)) - 1) +
      Real.logb 10 1013.246)) =
      Real.exp (Real.log 10 * (-7.90298 * (373.16 / 273.15 - 1) +
        5.02808 * Real.logb 10 (373.16 / 273.15) -
        1.3816e-7 * ((10:ℝ) ^ ((11.344:ℝ) * (1 - 273.15 / 373.16)) - 1) +
        8.1328e-3 * ((10:ℝ) ^ ((-3.49149:ℝ) * (373.16 / 273.15 - 1)) - 1) +
        Real.logb 10 1013.246)) :=
    Real.rpow_def_of_pos (by norm_num) _
  rw [hval, h10c]
  have hLpos : (0:ℝ) < -7.90298 * (373.16 / 273.15 - 1) +
      5.02808 * Real.logb 10 (373.16 / 273.15) -
      1.3816e-7 * ((10:ℝ) ^ ((11.344:ℝ) * (1 - 273.15 / 373.16)) - 1) +
      8.1328e-3 * ((10:ℝ) ^ ((-3.49149:ℝ) * (373.16 / 273.15 - 1)) - 1) +
      Real.logb 10 1013.246 := by linarith
  constructor
  · have hf_lo : (1.8087860:ℝ) < Real.log 10 * (-7.90298 * (373.16 / 273.15 - 1) +
        5.02808 * Real.logb 10 (373.16 / 273.15) -
        1.3816e-7 * ((10:ℝ) ^ ((11.344:ℝ) * (1 - 273.15 / 373.16)) - 1) +
        8.1328e-3 * ((10:ℝ) ^ ((-3.49149:ℝ) * (373.16 / 273.15 - 1)) - 1) +
        Real.logb 10 1013.246) := by
      have s2 : (2.302584:ℝ) * (-7.90298 * (373.16 / 273.15 - 1) +
          5.02808 * Real.logb 10 (373.16 / 273.15) -
          1.3816e-7 * ((10:ℝ) ^ ((11.344:ℝ) * (1 - 273.15 / 373.16)) - 1) +
          8.1328e-3 * ((10:ℝ) ^ ((-3.49149:ℝ) * (373.16 / 273.15 - 1)) - 1) +
          Real.logb 10 1013.246) < Real.log 10 * (-7.90298 * (373.16 / 273.15 - 1) +
          5.02808 * Real.logb 10 (373.16 / 273.15) -
          1.3816e-7 * ((10:ℝ) ^ ((11.344:ℝ) * (1 - 273.15 / 373.16)) - 1) +
          8.1328e-3 * ((10:ℝ) ^ ((-3.49149:ℝ) * (373.16 / 273.15 - 1)) - 1) +
          Real.logb 10 1013.246) :=
        mul_lt_mul_of_pos_right log_ten_lb hLpos
      nlinarith [hL_lo]
    have h1 := Real.exp_lt_exp.2 hf_lo
    have h2 : (6.1029:ℝ) < Real.exp 1.8087860 := by
      rw [show (1.8087860:ℝ) = ((1:ℕ):ℝ) + 0.8087860 by norm_num]
      exact lt_exp_add_nat 1 0.8087860 2.2451800 6.1029 (by norm_num) (by norm_num)
        (by norm_num) (by norm_num) (by norm_num)
    linarith
  · have hf_hi : Real.log 10 * (-7.90298 * (373.16 / 273.15 - 1) +
        5.02808 * Real.logb 10 (373.16 / 273.15) -
        1.3816e-7 * ((10:ℝ) ^ ((11.344:ℝ) * (1 - 273.15 / 373.16)) - 1) +
        8.1328e-3 * ((10:ℝ) ^ ((-3.49149:ℝ) * (373.16 / 273.15 - 1)) - 1) +
        Real.logb 10 1013.246) < 1.8088990 := by
      have s2 : Real.log 10 * (-7.90298 * (373.16 / 273.15 - 1) +
          5.02808 * Real.logb 10 (373.16 / 273.15) -
          1.3816e-7 * ((10:ℝ) ^ ((11.344:ℝ) * (1 - 273.15 / 373.16)) - 1) +
          8.1328e-3 * ((10:ℝ) ^ ((-3.49149:ℝ) * (373.16 / 273.15 - 1)) - 1) +
          Real.logb 10 1013.246) < 2.302586 * (-7.90298 * (373.16 / 273.15 - 1) +
          5.02808 * Real.logb 10 (373.16 / 273.15) -
          1.3816e-7 * ((10:ℝ) ^ ((11.344:ℝ) * (1 - 273.15 / 373.16)) - 1) +
          8.1328e-3 * ((10:ℝ) ^ ((-3.49149:ℝ) * (373.16 / 273.15 - 1)) - 1) +
          Real.logb 10 1013.246) :=
        mul_lt_mul_of_pos_right log_ten_ub hLpos
      nlinarith [hL_hi]
    have h1 := Real.exp_lt_exp.2 hf_hi
    have h2 : Real.exp 1.8088990 < 6.103730 := by
      rw [show (1.8088990:ℝ) = ((1:ℕ):ℝ) + 0.8088990 by norm_num]
      exact exp_add_nat_lt 1 0.8088990 2.2454345 6.103730 (by norm_num) (by norm_num)
        (by norm_num) (by norm_num) (by norm_num)
    linarith

/-- C4 counterexample: at the ice point the Antoine method misses 0.611 kPa by
about 0.89 percent, violating its claimed 0.4 percent band, and the
Goff-Gratch method misses it by more than 0.1 percent (its value is below
0.611 * 0.999 = 0.610389), violating its claimed 0.1 percent band. -/
theorem ice_point_bands_violated :
    ¬ |V2.calculateSaturationVaporPressure 273.15 .antoine - 0.611| ≤
        0.004 * 0.611 ∧
      ¬ |V2.calculateSaturationVaporPressure 273.15 .goffGratch - 0.611| ≤
        0.001 * 0.611 := by
  constructor
  · have h := antoine_ice_bounds
    have hv : V2.calculateSaturationVaporPressure 273.15 .antoine =
        V2.calculateSaturationVaporPressure_Antoine 273.15 := rfl
    rw [hv, not_le]
    have hneg : V2.calculateSaturationVaporPressure_Antoine 273.15 - 0.611 < 0 := by
      nlinarith [h.2]
    rw [abs_of_neg hneg]
    nlinarith [h.2]
  · have h := goffGratch_ice_bounds
    have hv : V2.calculateSaturationVaporPressure 273.15 .goffGratch =
        V2.calculateSaturationVaporPressure_GoffGratch 273.15 := rfl
    rw [hv, not_le]
    have hneg : V2.calculateSaturationVaporPressure_GoffGratch 273.15 - 0.611 <
        0 := by
      nlinarith [h.2]
    rw [abs_of_neg hneg]
    nlinarith [h.2]

/-- C4 (amended): at the ice point all five methods return approximately
0.611 kPa, with relative error at most 0.08 percent for buck, magnus and
tetens, at most 1 percent for antoine (the counterexample shows its claimed
0.4 percent band fails: the actual error is about 0.89 percent), and at most
0.12 percent for goff-gratch (the counterexample shows its claimed 0.1
percent band also fails: the actual error is about 0.109 percent). -/
theorem svp_ice_point_error_bands :
    |V2.calculateSaturationVaporPressure 273.15 .buck - 0.611| ≤ 0.0008 * 0.611 ∧
      |V2.calculateSaturationVaporPressure 273.15 .magnus - 0.611| ≤
        0.0008 * 0.611 ∧
      |V2.calculateSaturationVaporPressure 273.15 .tetens - 0.611| ≤
        0.0008 * 0.611 ∧
      |V2.calculateSaturationVaporPressure 273.15 .antoine - 0.611| ≤
        0.01 * 0.611 ∧
      |V2.calculateSaturationVaporPressure 273.15 .goffGratch - 0.611| ≤
        0.0012 * 0.611 := by
  refine ⟨?_, ?_, ?_, ?_, ?_⟩
  · show |V2.calculateSaturationVaporPressure_Buck 273.15 - 0.611| ≤ 0.0008 * 0.611
    rw [buck_ice_value, abs_le]
    constructor <;> norm_num
  · show |V2.calculateSaturationVaporPressure_Magnus 273.15 - 0.611| ≤
      0.0008 * 0.611
    rw [magnus_ice_value, abs_le]
    constructor <;> norm_num
  · show |V2.calculateSaturationVaporPressure_Tetens 273.15 - 0.611| ≤
      0.0008 * 0.611
    rw [tetens_ice_value, abs_le]
    constructor <;> norm_num
  · show |V2.calculateSaturationVaporPressure_Antoine 273.15 - 0.611| ≤
      0.01 * 0.611
    rw [abs_le]
    constructor
    · nlinarith [antoine_ice_bounds.1]
    · nlinarith [antoine_ice_bounds.2]
  · show |V2.calculateSaturationVaporPressure_GoffGratch 273.15 - 0.611| ≤
      0.0012 * 0.611
    rw [abs_le]
    constructor
    · nlinarith [goffGratch_ice_bounds.1]
    · nlinarith [goffGratch_ice_bounds.2]

open JSNum in
/-- Evaluation helper: the chain of finite products in front of the log factor
of `calculatePowerPerArea`. -/
lemma powerPerArea_head_eval (e t : ℝ) :
    jsMul (jsMul (jsMul (fin EVAPORATION_CONVERSION_CONSTANT) (fin e))
        (fin IDEAL_GAS_CONSTANT)) (fin t) =
      fin (EVAPORATION_CONVERSION_CONSTANT * e * IDEAL_GAS_CONSTANT * t) := rfl

open JSNum in
/-- Evaluation helper: dividing a finite value by (positive) zero. -/
lemma jsDiv_fin_zero (w : ℝ) :
    jsDiv (fin w) (fin 0) =
      if 0 < w then top else if w < 0 then bot else nan := by
  show (if (0:ℝ) = 0 then if 0 < w then top else if w < 0 then bot else nan
      else fin (w / 0)) = _
  rw [if_pos rfl]

open JSNum in
/-- Evaluation helper: multiplying a finite value by NaN gives NaN. -/
lemma jsMul_fin_nan (x : ℝ) : jsMul (fin x) nan = nan := rfl

open JSNum in
/-- Evaluation helper: `calculatePowerPerArea` at a strictly negative real
humidity quotient is NaN (log of a negative number). -/
lemma powerPerArea_neg_quotient (e t w a : ℝ) (hq : w / a < 0) :
    JS.calculatePowerPerArea (fin e) (fin t) (fin w) (fin a) = nan := by
  have ha : a ≠ 0 := by
    intro h
    rw [h, div_zero] at hq
    exact absurd hq (lt_irrefl 0)
  have hdiv : jsDiv (fin w) (fin a) = fin (w / a) := by
    show (if a = 0 then if 0 < w then top else if w < 0 then bot else nan
        else fin (w / a)) = _
    rw [if_neg ha]
  have hlog : jsLog (fin (w / a)) = nan := by
    show (if w / a < 0 then nan else if w / a = 0 then bot
        else fin (Real.log (w / a))) = _
    rw [if_pos hq]
  unfold JS.calculatePowerPerArea
  rw [hdiv, hlog, powerPerArea_head_eval, jsMul_fin_nan]

open JSNum in
/-- Evaluation helper: `calculatePowerPerArea` with zero air humidity is never
finite. -/
lemma powerPerArea_air_zero_not_finite (e t w : ℝ) :
    (JS.calculatePowerPerArea (fin e) (fin t) (fin w) (fin 0)).isFinite = false := by
  unfold JS.calculatePowerPerArea
  rw [powerPerArea_head_eval, jsDiv_fin_zero]
  rcases lt_trichotomy w 0 with hw | hw | hw
  · rw [if_neg (by linarith), if_pos hw]
    rfl
  · rw [hw, if_neg (lt_irrefl 0), if_neg (lt_irrefl 0)]
    rfl
  · rw [if_pos hw]
    rcases lt_trichotomy (EVAPORATION_CONVERSION_CONSTANT * e * IDEAL_GAS_CONSTANT * t) 0
      with hp | hp | hp
    · show (if 0 < EVAPORATION_CONVERSION_CONSTANT * e * IDEAL_GAS_CONSTANT * t
          then top else if EVAPORATION_CONVERSION_CONSTANT * e *
            IDEAL_GAS_CONSTANT * t < 0 then bot else nan).isFinite = false
      rw [if_neg (by linarith), if_pos hp]
      rfl
    · show (if 0 < EVAPORATION_CONVERSION_CONSTANT * e * IDEAL_GAS_CONSTANT * t
          then top else if EVAPORATION_CONVERSION_CONSTANT * e *
            IDEAL_GAS_CONSTANT * t < 0 then bot else nan).isFinite = false
      rw [hp, if_neg (lt_irrefl 0), if_neg (lt_irrefl 0)]
      rfl
    · show (if 0 < EVAPORATION_CONVERSION_CONSTANT * e * IDEAL_GAS_CONSTANT * t
          then top else if EVAPORATION_CONVERSION_CONSTANT * e *
            IDEAL_GAS_CONSTANT * t < 0 then bot else nan).isFinite = false
      rw [if_pos hp]
      rfl

open JSNum in
/-- C7 counterexample: at `evapRate = 1`, `T_air = 1`, `relHumWet = 0`,
`relHumAir = 1` the humidity quotient is `0 ≤ 0`, yet the result is
`-Infinity` (from `log 0`), not NaN — refuting the claim that a nonpositive
quotient always yields NaN. -/
theorem powerPerArea_zero_quotient_not_nan :
    (0 : ℝ) / 1 ≤ 0 ∧
      JS.calculatePowerPerArea (fin 1) (fin 1) (fin 0) (fin 1) ≠ nan := by
  constructor
  · norm_num
  · have hdiv : jsDiv (fin (0:ℝ)) (fin 1) = fin ((0:ℝ) / 1) := by
      show (if (1:ℝ) = 0 then if (0:ℝ) < 0 then top else if (0:ℝ) < 0 then bot
          else nan else fin ((0:ℝ) / 1)) = _
      rw [if_neg (by norm_num : (1:ℝ) ≠ 0)]
    have hq : ((0:ℝ) / 1) = 0 := by norm_num
    have hlog : jsLog (fin ((0:ℝ) / 1)) = bot := by
      show (if (0:ℝ) / 1 < 0 then nan else if (0:ℝ) / 1 = 0 then bot
          else fin (Real.log ((0:ℝ) / 1))) = _
      rw [if_neg (by norm_num), if_pos hq]
    unfold JS.calculatePowerPerArea
    rw [hdiv, hlog, powerPerArea_head_eval]
    show (if 0 < EVAPORATION_CONVERSION_CONSTANT * 1 * IDEAL_GAS_CONSTANT * 1
        then bot else if EVAPORATION_CONVERSION_CONSTANT * 1 *
          IDEAL_GAS_CONSTANT * 1 < 0 then top else nan) ≠ nan
    rw [if_pos (by norm_num [EVAPORATION_CONVERSION_CONSTANT, IDEAL_GAS_CONSTANT])]
    simp

open JSNum in
/-- C7 (amended): with `relHumAir = 0` the IEEE-754 result of
`calculatePowerPerArea` is always non-finite (`+Infinity`, `-Infinity` or
NaN) and no exception can be raised (the function is total); and whenever the
humidity quotient is strictly negative the result is NaN.  (A quotient of
exactly zero instead makes the log `-Infinity`, so the result is then
non-finite but not necessarily NaN.) -/
theorem powerPerArea_special_values :
    (∀ e t w : ℝ,
        (JS.calculatePowerPerArea (fin e) (fin t) (fin w) (fin 0)).isFinite
          = false) ∧
      ∀ e t w a : ℝ, w / a < 0 →
        JS.calculatePowerPerArea (fin e) (fin t) (fin w) (fin a) = nan :=
  ⟨powerPerArea_air_zero_not_finite, powerPerArea_neg_quotient⟩

open JSNum in
/-- C7 witness: the amended theorem applied at concrete inputs: air humidity
zero, and a negative quotient `-1/1`. -/
theorem powerPerArea_special_values_witness :
    (JS.calculatePowerPerArea (fin 1) (fin 1) (fin 1) (fin 0)).isFinite
        = false ∧
      ((-1 : ℝ) / 1 < 0 ∧
        JS.calculatePowerPerArea (fin 1) (fin 1) (fin (-1)) (fin 1) = nan) :=
  ⟨powerPerArea_special_values.1 1 1 1,
    ⟨by norm_num, powerPerArea_special_values.2 1 1 (-1) 1 (by norm_num)⟩⟩

open JSNum in
/-- Evaluation helper: the Antoine formula at the pole `T = 39.724` in
IEEE-754 semantics: `T + C = 0`, the division gives `+Infinity`, the
subtraction `-Infinity`, `10^(-Infinity) = 0`, and `0 * 0.133322 = 0`. -/
lemma antoine_pole_eval :
    JS.calculateSaturationVaporPressure_Antoine (fin 39.724) = fin 0 := by
  show jsMul (jsPow10 (jsSub (fin 8.07131)
      (jsDiv (fin 1730.63) (jsAdd (fin 39.724) (fin (-39.724))))))
      (fin 0.133322) = fin 0
  have h1 : jsAdd (fin (39.724:ℝ)) (fin (-39.724)) = fin 0 := by
    show fin ((39.724:ℝ) + -39.724) = fin 0
    norm_num
  rw [h1]
  have h2 : jsDiv (fin (1730.63:ℝ)) (fin 0) = top := by
    rw [jsDiv_fin_zero, if_pos (by norm_num : (0:ℝ) < 1730.63)]
  rw [h2]
  show fin ((0:ℝ) * 0.133322) = fin 0
  norm_num

open JSNum in
/-- C8 counterexample: at `T = 39.724` the Antoine evaluation does not return
`+Infinity` (the division by zero produces an intermediate Infinity, but
`10^(-Infinity)` collapses it to zero). -/
theorem antoine_pole_not_infinity :
    JS.calculateSaturationVaporPressure_Antoine (fin 39.724) ≠ top := by
  rw [antoine_pole_eval]
  simp

open JSNum in
/-- C8 (amended): at `T = 39.724` the Antoine division by zero yields an
intermediate `+Infinity`, but the returned value is `0` (since
`10^(-Infinity) = 0`), and no exception is raised (the embedding is a total
function). -/
theorem antoine_pole_returns_zero :
    JS.calculateSaturationVaporPressure_Antoine (fin 39.724) = fin 0 :=
  antoine_pole_eval

/-- Strict monotonicity of the Buck formula on the claimed range. -/
lemma buck_strictMono {T1 T2 : ℝ} (h1 : 233.15 ≤ T1) (h12 : T1 < T2)
    (h2 : T2 ≤ 323.15) :
    V2.calculateSaturationVaporPressure_Buck T1 <
      V2.calculateSaturationVaporPressure_Buck T2 := by
  show 6.1121 * Real.exp ((18.678 - (T1 - 273.15) / 234.5) * (T1 - 273.15) /
        (257.14 + (T1 - 273.15))) / 10 <
      6.1121 * Real.exp ((18.678 - (T2 - 273.15) / 234.5) * (T2 - 273.15) /
        (257.14 + (T2 - 273.15))) / 10
  have harg : (18.678 - (T1 - 273.15) / 234.5) * (T1 - 273.15) /
        (257.14 + (T1 - 273.15)) <
      (18.678 - (T2 - 273.15) / 234.5) * (T2 - 273.15) /
        (257.14 + (T2 - 273.15)) := by
    set t1 := T1 - 273.15 with ht1
    set t2 := T2 - 273.15 with ht2
    have hb1 : -40 ≤ t1 := by rw [ht1]; linarith
    have hb2 : t2 ≤ 50 := by rw [ht2]; linarith
    have hb12 : t1 < t2 := by rw [ht1, ht2]; linarith
    have hd1 : (0:ℝ) < 257.14 + t1 := by linarith
    have hd2 : (0:ℝ) < 257.14 + t2 := by linarith
    rw [div_lt_div_iff hd1 hd2]
    have hfac : 0 < 18.678 * 257.14 * 234.5 - 257.14 * (t1 + t2) - t1 * t2 := by
      nlinarith [mul_nonneg (by linarith : (0:ℝ) ≤ 50 - t1)
        (by linarith : (0:ℝ) ≤ t2 + 40)]
    have key : ((18.678 - t2 / 234.5) * t2 * (257.14 + t1) -
        (18.678 - t1 / 234.5) * t1 * (257.14 + t2)) * 234.5 =
        (t2 - t1) * (18.678 * 257.14 * 234.5 - 257.14 * (t1 + t2) - t1 * t2) := by
      ring
    nlinarith [mul_pos (by linarith : (0:ℝ) < t2 - t1) hfac, key]
  have := Real.exp_lt_exp.2 harg
  linarith

/-- Strict monotonicity of the Magnus formula on the claimed range. -/
lemma magnus_strictMono {T1 T2 : ℝ} (h1 : 233.15 ≤ T1) (h12 : T1 < T2)
    (h2 : T2 ≤ 323.15) :
    V2.calculateSaturationVaporPressure_Magnus T1 <
      V2.calculateSaturationVaporPressure_Magnus T2 := by
  show 6.112 * Real.exp (17.67 * (T1 - 273.15) / ((T1 - 273.15) + 243.5)) / 10 <
      6.112 * Real.exp (17.67 * (T2 - 273.15) / ((T2 - 273.15) + 243.5)) / 10
  have harg : 17.67 * (T1 - 273.15) / ((T1 - 273.15) + 243.5) <
      17.67 * (T2 - 273.15) / ((T2 - 273.15) + 243.5) := by
    have hd1 : (0:ℝ) < (T1 - 273.15) + 243.5 := by linarith
    have hd2 : (0:ℝ) < (T2 - 273.15) + 243.5 := by linarith
    rw [div_lt_div_iff hd1 hd2]
    nlinarith
  have := Real.exp_lt_exp.2 harg
  linarith

/-- Strict monotonicity of the Tetens formula on the claimed range. -/
lemma tetens_strictMono {T1 T2 : ℝ} (h1 : 233.15 ≤ T1) (h12 : T1 < T2)
    (h2 : T2 ≤ 323.15) :
    V2.calculateSaturationVaporPressure_Tetens T1 <
      V2.calculateSaturationVaporPressure_Tetens T2 := by
  show 6.1078 * Real.exp (17.27 * (T1 - 273.15) / ((T1 - 273.15) + 237.3)) / 10 <
      6.1078 * Real.exp (17.27 * (T2 - 273.15) / ((T2 - 273.15) + 237.3)) / 10
  have harg : 17.27 * (T1 - 273.15) / ((T1 - 273.15) + 237.3) <
      17.27 * (T2 - 273.15) / ((T2 - 273.15) + 237.3) := by
    have hd1 : (0:ℝ) < (T1 - 273.15) + 237.3 := by linarith
    have hd2 : (0:ℝ) < (T2 - 273.15) + 237.3 := by linarith
    rw [div_lt_div_iff hd1 hd2]
    nlinarith
  have := Real.exp_lt_exp.2 harg
  linarith

/-- Strict monotonicity of the Antoine formula on the claimed range. -/
lemma antoine_strictMono {T1 T2 : ℝ} (h1 : 233.15 ≤ T1) (h12 : T1 < T2)
    (h2 : T2 ≤ 323.15) :
    V2.calculateSaturationVaporPressure_Antoine T1 <
      V2.calculateSaturationVaporPressure_Antoine T2 := by
  show (10:ℝ) ^ (8.07131 - 1730.63 / (T1 + -39.724)) * 0.133322 <
      (10:ℝ) ^ (8.07131 - 1730.63 / (T2 + -39.724)) * 0.133322
  have hd1 : (0:ℝ) < T1 + -39.724 := by linarith
  have hd2 : (0:ℝ) < T2 + -39.724 := by linarith
  have harg : 8.07131 - 1730.63 / (T1 + -39.724) <
      8.07131 - 1730.63 / (T2 + -39.724) := by
    have := (div_lt_div_left (by norm_num : (0:ℝ) < 1730.63) hd2 hd1).2
      (by linarith : T1 + -39.724 < T2 + -39.724)
    linarith
  have := (Real.rpow_lt_rpow_left_iff (by norm_num : (1:ℝ) < 10)).2 harg
  nlinarith

/-- The decreasing log term of Goff-Gratch is dominated by its first,
increasing term: for `1 < r2 < r1`,
`5.02808 * (logb 10 r1 - logb 10 r2) ≤ 7.90298 * (r1 - r2)`. -/
lemma logb_diff_bound {r1 r2 : ℝ} (hr2gt1 : 1 < r2) (hr21 : r2 < r1) :
    5.02808 * (Real.logb 10 r1 - Real.logb 10 r2) ≤ 7.90298 * (r1 - r2) := by
  have hr2p : (0:ℝ) < r2 := by linarith
  have hr1p : (0:ℝ) < r1 := by linarith
  have hnum : (0:ℝ) ≤ r1 - r2 := by linarith
  have hld : Real.logb 10 r1 - Real.logb 10 r2 =
      Real.log (r1 / r2) / Real.log 10 := by
    rw [Real.logb, Real.logb, div_sub_div_same, ← Real.log_div hr1p.ne' hr2p.ne']
  have hlog1 : Real.log (r1 / r2) ≤ r1 / r2 - 1 :=
    Real.log_le_sub_one_of_pos (div_pos hr1p hr2p)
  have hlog2 : r1 / r2 - 1 ≤ r1 - r2 := by
    have he : r1 / r2 - 1 = (r1 - r2) / r2 := by
      field_simp
    rw [he]
    exact div_le_self hnum hr2gt1.le
  have hlogpos : (0:ℝ) ≤ Real.log (r1 / r2) :=
    Real.log_nonneg ((one_le_div hr2p).2 hr21.le)
  have hl10 : (2:ℝ) < Real.log 10 := two_lt_log_ten
  have hdiv : Real.log (r1 / r2) / Real.log 10 ≤ Real.log (r1 / r2) / 2 :=
    div_le_div_of_nonneg_left hlogpos (by norm_num) hl10.le
  rw [hld]
  linarith

/-- Strict monotonicity of the Goff-Gratch formula on the claimed range. -/
lemma goffGratch_strictMono {T1 T2 : ℝ} (h1 : 233.15 ≤ T1) (h12 : T1 < T2)
    (h2 : T2 ≤ 323.15) :
    V2.calculateSaturationVaporPressure_GoffGratch T1 <
      V2.calculateSaturationVaporPressure_GoffGratch T2 := by
  have hT1p : (0:ℝ) < T1 := by linarith
  have hT2p : (0:ℝ) < T2 := by linarith
  have hTsp : (0:ℝ) < 373.16 := by norm_num
  set r1 : ℝ := 373.16 / T1 with hr1
  set r2 : ℝ := 373.16 / T2 with hr2
  have hr1p : 0 < r1 := div_pos hTsp hT1p
  have hr2p : 0 < r2 := div_pos hTsp hT2p
  have hr21 : r2 < r1 := by
    rw [hr1, hr2]
    exact (div_lt_div_left hTsp hT2p hT1p).2 h12
  have hr2gt1 : 1 < r2 := by
    rw [hr2, one_lt_div hT2p]
    linarith
  -- the decreasing log term is dominated by the first (increasing) term
  have hlogbound : 5.02808 * (Real.logb 10 r1 - Real.logb 10 r2) ≤
      7.90298 * (r1 - r2) := logb_diff_bound hr2gt1 hr21
  -- the two rpow terms are strictly increasing in T
  have hs12 : 11.344 * (1 - T2 / 373.16) < 11.344 * (1 - T1 / 373.16) := by
    have : T1 / 373.16 < T2 / 373.16 := (div_lt_div_right hTsp).2 h12
    nlinarith
  have hp3 : (10:ℝ) ^ (11.344 * (1 - T2 / 373.16)) <
      (10:ℝ) ^ (11.344 * (1 - T1 / 373.16)) :=
    (Real.rpow_lt_rpow_left_iff (by norm_num : (1:ℝ) < 10)).2 hs12
  have hw12 : -3.49149 * (r1 - 1) < -3.49149 * (r2 - 1) := by nlinarith
  have hp4 : (10:ℝ) ^ (-3.49149 * (r1 - 1)) < (10:ℝ) ^ (-3.49149 * (r2 - 1)) :=
    (Real.rpow_lt_rpow_left_iff (by norm_num : (1:ℝ) < 10)).2 hw12
  have hL : -7.90298 * (r1 - 1) + 5.02808 * Real.logb 10 r1 -
        1.3816e-7 * ((10:ℝ) ^ (11.344 * (1 - T1 / 373.16)) - 1) +
        8.1328e-3 * ((10:ℝ) ^ (-3.49149 * (r1 - 1)) - 1) +
        Real.logb 10 1013.246 <
      -7.90298 * (r2 - 1) + 5.02808 * Real.logb 10 r2 -
        1.3816e-7 * ((10:ℝ) ^ (11.344 * (1 - T2 / 373.16)) - 1) +
        8.1328e-3 * ((10:ℝ) ^ (-3.49149 * (r2 - 1)) - 1) +
        Real.logb 10 1013.246 := by
    linarith
  show (10:ℝ) ^ (-7.90298 * (373.16 / T1 - 1) +
        5.02808 * Real.logb 10 (373.16 / T1) -
        1.3816e-7 * ((10:ℝ) ^ (11.344 * (1 - T1 / 373.16)) - 1) +
        8.1328e-3 * ((10:ℝ) ^ (-3.49149 * (373.16 / T1 - 1)) - 1) +
        Real.logb 10 1013.246) / 10 <
      (10:ℝ) ^ (-7.90298 * (373.16 / T2 - 1) +
        5.02808 * Real.logb 10 (373.16 / T2) -
        1.3816e-7 * ((10:ℝ) ^ (11.344 * (1 - T2 / 373.16)) - 1) +
        8.1328e-3 * ((10:ℝ) ^ (-3.49149 * (373.16 / T2 - 1)) - 1) +
        Real.logb 10 1013.246) / 10
  rw [div_lt_div_right (by norm_num : (0:ℝ) < 10)]
  exact (Real.rpow_lt_rpow_left_iff (by norm_num : (1:ℝ) < 10)).2 hL

/-- C5: for each of the five methods, `calculateSaturationVaporPressure` is
strictly increasing in temperature on the range 233.15 K to 323.15 K. -/
theorem svp_strictMono (m : VaporPressureMethod) (T1 T2 : ℝ)
    (h1 : 233.15 ≤ T1) (h12 : T1 < T2) (h2 : T2 ≤ 323.15) :
    V2.calculateSaturationVaporPressure T1 m <
      V2.calculateSaturationVaporPressure T2 m := by
  cases m with
  | buck => exact buck_strictMono h1 h12 h2
  | magnus => exact magnus_strictMono h1 h12 h2
  | tetens => exact tetens_strictMono h1 h12 h2
  | antoine => exact antoine_strictMono h1 h12 h2
  | goffGratch => exact goffGratch_strictMono h1 h12 h2

/-- C5 witness: strict monotonicity applied at `buck`, `273.15 < 293.15`. -/
theorem svp_strictMono_witness :
    (233.15:ℝ) ≤ 273.15 ∧ (273.15:ℝ) < 293.15 ∧ (293.15:ℝ) ≤ 323.15 ∧
      V2.calculateSaturationVaporPressure 273.15 .buck <
        V2.calculateSaturationVaporPressure 293.15 .buck :=
  ⟨by norm_num, by norm_num, by norm_num,
    svp_strictMono .buck 273.15 293.15 (by norm_num) (by norm_num) (by norm_num)⟩

/-- C9: when `e_s` is explicitly supplied, `calculateDelta` does not depend on
the method tag. -/
theorem calculateDelta_method_irrelevant (T e_s : ℝ) (L_v R_v : Option ℝ)
    (m1 m2 : Option VaporPressureMethod) :
    V2.calculateDelta ⟨T, some e_s, L_v, R_v, m1⟩ =
      V2.calculateDelta ⟨T, some e_s, L_v, R_v, m2⟩ := by
  rfl

/-- C10: the early Buck-only module agrees with the multi-method module: the
version 1 saturation vapor pressure equals the version 2 one at `buck`, and
the version 1 positional `calculateDelta` equals the version 2 params-struct
one at `buck`, for any optional `e_s`. -/
theorem v1_v2_agree :
    (∀ T : ℝ, V1.calculateSaturationVaporPressure T =
        V2.calculateSaturationVaporPressure T .buck) ∧
      ∀ (T : ℝ) (e_s : Option ℝ) (L_v R_v : ℝ),
        V1.calculateDelta T e_s L_v R_v =
          V2.calculateDelta ⟨T, e_s, some L_v, some R_v, some .buck⟩ := by
  refine ⟨fun T => rfl, fun T e_s L_v R_v => ?_⟩
  cases e_s <;> rfl

end Evapoflex
